import Mathlib

/-!
Shallow embedding of `src/copic.py` (and its socket client) — a multi-monitor
wallpaper compositor with a background rotation daemon and a local TCP command
channel.  Pure data flow is translated to Lean functions; Python exceptions
become `Except PyError`; the external world (xrandr output, directory listings,
the RNG behind `random.choices`, `PIL.Image.open`, socket events, the clock) is
passed in explicitly as data.  Timestamps are modelled at whole-second
granularity as `Int` (Python `datetime` has microseconds; no claim depends on
sub-second behaviour).
-/

namespace Copic

/-- Python exceptions that can be raised along the modelled code paths. -/
inductive PyError where
  /-- Models `raise Exception("Copic: xrandr -q output null")` in `get_display_data`
  (line 32); also stands for the `AttributeError` a failed regex parse of the
  xrandr output would raise — both are "layout query failed". -/
  | xrandrNull
  /-- Models `ZeroDivisionError` from the aspect-ratio divisions inside
  `PIL.ImageOps.fit` when the image height or the target height is zero. -/
  | zeroDivisionError
  /-- Models the `IndexError` raised by `random.choices` when the population is empty and
  `k > 0` (`population[floor(random() * 0.0)]`). -/
  | indexError
  /-- A failure of `PIL.Image.open` (missing file / undecodable image). -/
  | openFailure
  /-- Models `UnicodeDecodeError` from `bytes.decode("utf-8")` in `command_listener`. -/
  | unicodeDecodeError
  /-- Models a Python `NameError` for an unbound name `n`. -/
  | nameError (n : String)
  deriving DecidableEq, Repr

/-- A filesystem path as the program observes it: `pathlib.Path` with its
`suffix` and `is_dir()` answer. -/
structure FSPath where
  name : String
  suffix : String
  isDir : Bool
  deriving DecidableEq, Repr

/-- One entry of `display_data["monitors"]` built by `get_display_data`
(lines 43-49): `x`/`y` are the monitor width/height parsed from the
`WxH+X+Y` geometry, `x_offset`/`y_offset` its position, `primary` the flag. -/
structure Monitor where
  x : Nat
  y : Nat
  x_offset : Nat
  y_offset : Nat
  primary : Bool
  deriving DecidableEq, Repr

/-- The `display_data["viewport"]` entry — the combined virtual-screen size parsed from
the xrandr header line (lines 35-36). -/
structure Viewport where
  x : Nat
  y : Nat
  deriving DecidableEq, Repr

/-- The `display_data` dict: viewport plus monitor list. -/
structure DisplayData where
  viewport : Viewport
  monitors : List Monitor
  deriving DecidableEq, Repr

/-- A decoded `PIL.Image` as far as the modelled code observes it: its pixel
dimensions (`image.width`, `image.height`). -/
structure Img where
  width : Nat
  height : Nat
  deriving DecidableEq, Repr

/-- The composed wallpaper: the `Image.new("RGBA", (viewport.x, viewport.y))`
canvas together with the ordered list of `paste(transformed, (x_off, y_off))`
operations performed on it (later pastes overwrite earlier ones). -/
structure Wallpaper where
  width : Nat
  height : Nat
  pastes : List (Img × Nat × Nat)
  deriving DecidableEq, Repr

/-- Models `IMAGE_EXT = Image.registered_extensions().keys()` (line 18).  The exact
set is determined by the installed PIL plugins; this is the standard list for
a stock Pillow install.  The claims depend only on membership filtering. -/
def IMAGE_EXT : List String :=
  [".blp", ".bmp", ".dib", ".bufr", ".cur", ".pcx", ".dcx", ".dds", ".ps",
   ".eps", ".fit", ".fits", ".fli", ".flc", ".ftc", ".ftu", ".gbr", ".gif",
   ".grib", ".h5", ".hdf", ".png", ".apng", ".jp2", ".j2k", ".jpc", ".jpf",
   ".jpx", ".j2c", ".icns", ".ico", ".im", ".iim", ".jfif", ".jpe", ".jpg",
   ".jpeg", ".tif", ".tiff", ".mpo", ".msp", ".palm", ".pcd", ".pdf", ".pxr",
   ".pbm", ".pgm", ".ppm", ".pnm", ".psd", ".bw", ".rgb", ".rgba", ".sgi",
   ".ras", ".tga", ".icb", ".vda", ".vst", ".webp", ".wmf", ".emf", ".xbm",
   ".xpm"]

/-- Aspect-ratio key used to sort images: `lambda img: img.width / img.height`
(lines 169, 263).  Python float division is modelled as exact `ℚ` division
(total in Lean; the program only ever applies it to positive dimensions). -/
def aspect (i : Img) : ℚ := (i.width : ℚ) / (i.height : ℚ)

/-- Aspect-ratio key used to sort monitors: `lambda m: m["x"] / m["y"]`
(line 52). -/
def monAspect (m : Monitor) : ℚ := (m.x : ℚ) / (m.y : ℚ)

/-- Stable insertion step: place `x` after every element with a strictly
smaller key and before the first element with an equal-or-larger key. -/
def insertK (key : α → ℚ) (x : α) : List α → List α
  | [] => [x]
  | y :: ys => if key y < key x then y :: insertK key x ys else x :: y :: ys

/-- Python `sorted(l, key=key)`: a stable ascending sort comparing by `key`
only.  Python uses Timsort, but the stable sorted permutation of a list is
unique, so this structurally recursive stable insertion sort computes the
same list (elements are inserted right-to-left, each before any equal-key
element already placed, preserving input order among equal keys). -/
def pySorted (key : α → ℚ) : List α → List α
  | [] => []
  | x :: xs => insertK key x (pySorted key xs)

/-- Models `get_display_data` (lines 22-53).  The xrandr subprocess and the regex
parse are the external layout source: `none` stands for "no output lines or
unparseable output" (the code raises on empty output; a parse failure raises
from `re.search(...).groups()`).  On success the monitors are sorted by aspect
ratio (line 52). -/
def get_display_data (xrandr : Option (Viewport × List Monitor)) :
    Except PyError DisplayData :=
  match xrandr with
  | none => .error .xrandrNull
  | some (vp, mons) => .ok ⟨vp, pySorted monAspect mons⟩

/-- The crop box computed by `PIL.ImageOps.fit(image, size)` with the default
`bleed=0.0`, `centering=(0.5, 0.5)`: the largest centered region of the source
with the target aspect ratio (transcribed from Pillow's `ImageOps.fit`). -/
def fitCropBox (iw ih tw th : ℚ) : ℚ × ℚ × ℚ × ℚ :=
  let liveAspect := iw / ih
  let outAspect := tw / th
  let cropPair : ℚ × ℚ :=
    if liveAspect = outAspect then (iw, ih)
    else if liveAspect ≥ outAspect then (ih * outAspect, ih)
    else (iw, iw / outAspect)
  let left := (iw - cropPair.1) * (1 / 2)
  let top := (ih - cropPair.2) * (1 / 2)
  (left, top, left + cropPair.1, top + cropPair.2)

/-- Models `image.resize(size, method, box=box)`: PIL's resize returns an image of
exactly the requested size (pixel content is outside this dimensional model). -/
def resize (_image : Img) (size : Nat × Nat) (_box : ℚ × ℚ × ℚ × ℚ) : Img :=
  ⟨size.1, size.2⟩

/-- Models `PIL.ImageOps.fit(image, size)` — the default `transform` of `join_images`
(line 74).  It divides by the image height (`live_size_ratio`) and by the
target height (`output_ratio`), so a zero height on either side raises
`ZeroDivisionError`; otherwise it resizes the crop box to exactly `size`. -/
def fit (image : Img) (size : Nat × Nat) : Except PyError Img :=
  if image.height = 0 ∨ size.2 = 0 then .error .zeroDivisionError
  else .ok (resize image size (fitCropBox image.width image.height size.1 size.2))

/-- The `for mon, image in zip(monitors, images)` body of `join_images`
(lines 81-83), producing the paste list in loop order. -/
def paste_list : List (Monitor × Img) → Except PyError (List (Img × Nat × Nat))
  | [] => .ok []
  | p :: rest =>
    match fit p.2 (p.1.x, p.1.y) with
    | .error e => .error e
    | .ok transformed =>
      match paste_list rest with
      | .error e => .error e
      | .ok tail => .ok ((transformed, p.1.x_offset, p.1.y_offset) :: tail)

/-- Models `join_images(display_data, images, transform=fit)` (lines 74-84): allocate
the viewport-sized RGBA canvas, then paste each transformed image at its
monitor's offset.  `zip` pairs monitors and images positionally and silently
truncates to the shorter list. -/
def join_images (display_data : DisplayData) (images : List Img) :
    Except PyError Wallpaper :=
  match paste_list (display_data.monitors.zip images) with
  | .error e => .error e
  | .ok pastes =>
    .ok ⟨display_data.viewport.x, display_data.viewport.y, pastes⟩

/-- Models `random.choices(population, k=k)` (CPython semantics, uniform weights):
`[population[floor(random() * n)] for i in repeat(None, k)]`.  With an empty
population each draw raises `IndexError`, but `k = 0` performs no draw and
returns `[]`.  The RNG is modelled by `draw : Nat → Nat`; draw `i` selects
index `draw i % n`, ranging over the same index space `[0, n)`. -/
def choices (population : List α) (k : Nat) (draw : Nat → Nat) :
    Except PyError (List α) :=
  match population with
  | [] => if k = 0 then .ok [] else .error .indexError
  | a :: rest =>
    .ok ((List.range k).map fun i =>
      (a :: rest).get ⟨draw i % (a :: rest).length, Nat.mod_lt _ (Nat.succ_pos _)⟩)

/-- The directory selection shared by `loop_iter` (line 165) and `main`
(line 252): filter the listing to recognized image extensions, then draw
`k` paths with replacement via `random.choices`. -/
def select_images (files : List FSPath) (k : Nat) (draw : Nat → Nat) :
    Except PyError (List FSPath) :=
  choices (files.filter fun p => decide (p.suffix ∈ IMAGE_EXT)) k draw

/-- Models `[Image.open(p) for p in paths]` (lines 166, 260): decode each path,
propagating the first decode failure. -/
def open_all (f : FSPath → Except PyError Img) :
    List FSPath → Except PyError (List Img)
  | [] => .ok []
  | p :: rest =>
    match f p with
    | .error e => .error e
    | .ok i =>
      match open_all f rest with
      | .error e => .error e
      | .ok rest_imgs => .ok (i :: rest_imgs)

/-- The external world one `loop_iter` call observes: the xrandr query result,
the clock (`datetime.datetime.now()` as whole seconds), the directory listing
`path.iterdir()`, the RNG, and the image decoder. -/
structure LoopEnv where
  xrandr : Option (Viewport × List Monitor)
  now : Int
  dirFiles : List FSPath
  draw : Nat → Nat
  openImage : FSPath → Except PyError Img

/-- The `timedelta.seconds` component of `now - last`: Python normalizes a timedelta to
`days`/`seconds`/`microseconds` with `0 ≤ seconds < 86400`, so the `seconds`
component is the total (floored) seconds modulo one day — `Int.emod` matches
that normalization for negative deltas too.  This is NOT the total elapsed
time (`total_seconds()`); the code uses `.seconds` (line 156). -/
def tdSeconds (now last : Int) : Int := (now - last) % 86400

/-- The `do_change` composition body of `loop_iter` (lines 163-173): list the
directory, filter by extension, draw one path per monitor, decode, sort the
images by aspect ratio, and join.  (`merged.save` and `set_wallpaper` are the
opaque apply sink; their effect is the returned `Wallpaper`.) -/
def compose_pass (env : LoopEnv) (display_data : DisplayData) :
    Except PyError Wallpaper :=
  match select_images env.dirFiles display_data.monitors.length env.draw with
  | .error e => .error e
  | .ok paths =>
    match open_all env.openImage paths with
    | .error e => .error e
    | .ok imgs => join_images display_data (pySorted aspect imgs)

/-- Models `loop_iter(path, prev_display_data, change_every, last_change_time)`
(lines 141-175).  The `if/elif/else` deciding `do_change` is flattened into
branches: a monitor-count change composes without touching
`last_change_time`; an elapsed interval (`timedelta.seconds / 60 >=
change_every`, line 156) composes and resets `last_change_time` to now
(line 159); otherwise nothing happens.  Returns the fresh display data, the
(possibly updated) `last_change_time`, and the composed wallpaper if any. -/
def loop_iter (env : LoopEnv) (change_every : ℚ) (prev : DisplayData)
    (last_change_time : Int) :
    Except PyError (DisplayData × Int × Option Wallpaper) :=
  match get_display_data env.xrandr with
  | .error e => .error e
  | .ok display_data =>
    if display_data.monitors.length ≠ prev.monitors.length then
      match compose_pass env display_data with
      | .error e => .error e
      | .ok merged => .ok (display_data, last_change_time, some merged)
    else if (tdSeconds env.now last_change_time : ℚ) / 60 ≥ change_every then
      match compose_pass env display_data with
      | .error e => .error e
      | .ok merged => .ok (display_data, env.now, some merged)
    else
      .ok (display_data, last_change_time, none)

/-- Outcome of one pass through the `while True` body of `background_loop`
(lines 129-138). -/
inductive StepOutcome where
  /-- An exception escaped `loop_iter`; `background_loop` has no handler, so
  the exception propagates out of the loop and the rotation daemon dies. -/
  | crashed (e : PyError)
  /-- Case where `loop_iter` completed (yielding the fresh display data and change time)
  but `command_queue.get()` found the queue empty and blocks indefinitely:
  no further iteration starts until a command arrives. -/
  | blocked (display : DisplayData) (last_change : Int)
  /-- Case where `loop_iter` completed and `command_queue.get()` returned the head
  command; the loop sleeps `poll_rate` and continues with the rest. -/
  | next (display : DisplayData) (last_change : Int) (cmd : String)
      (rest : List String)
  deriving DecidableEq, Repr

/-- One iteration of the `background_loop` body (lines 129-138): run
`loop_iter` (uncaught exceptions crash the loop), then `command_queue.get()`
— a *blocking* read of the queue with no timeout. -/
def background_step (env : LoopEnv) (change_every : ℚ) (queue : List String)
    (prev : DisplayData) (last_change_time : Int) : StepOutcome :=
  match loop_iter env change_every prev last_change_time with
  | .error e => .crashed e
  | .ok (dd, t, _) =>
    match queue with
    | [] => .blocked dd t
    | c :: rest => .next dd t c rest

/-- The one-shot environment: xrandr result, directory listing (flat and
recursive variants), RNG, and image decoder. -/
structure OneShotEnv where
  xrandr : Option (Viewport × List Monitor)
  dirListing : List FSPath
  recListing : List FSPath
  draw : Nat → Nat
  openImage : FSPath → Except PyError Img

/-- The non-daemon branch of `main` (lines 238-267).  Note the `elif` branch
(lines 253-255) calls `sys.exit(...)`, but `copic.py` never imports `sys`, so
evaluating the callable `sys.exit` raises `NameError: name 'sys' is not
defined` before the exit message is ever built. -/
def main_oneshot (env : OneShotEnv) (args_images : List FSPath) (rec : Bool) :
    Except PyError Wallpaper :=
  match get_display_data env.xrandr with
  | .error e => .error e
  | .ok display_data =>
    match args_images with
    | [] => .error .indexError
    | first_path :: _ =>
      let pathsE : Except PyError (List FSPath) :=
        if args_images.length = 1 ∧ first_path.isDir then
          select_images (if rec then env.recListing else env.dirListing)
            display_data.monitors.length env.draw
        else if args_images.length ≠ display_data.monitors.length then
          .error (.nameError ("sys"))
        else
          .ok args_images
      match pathsE with
      | .error e => .error e
      | .ok paths =>
        match open_all env.openImage paths with
        | .error e => .error e
        | .ok imgs => join_images display_data (pySorted aspect imgs)

/-- One event observed by `client_socket.recv(4096)` inside the per-connection
read loop of `command_listener` (lines 202-211): a 1-second timeout, a
non-empty data chunk (bytes as `List Nat`), or the peer closing (recv
returning `b""`). -/
inductive RecvEvent where
  | timeout
  | data (chunk : List Nat)
  | closed
  deriving DecidableEq, Repr

/-- The per-connection read loop (lines 203-211) run against a finite trace of
socket events: `except socket.timeout: continue` retries the read, data chunks
are appended, and an empty recv breaks.  `none` means the trace was exhausted
without the peer closing — the loop is still spinning (a permanently silent
client keeps it there forever, since nothing ever drops the connection). -/
def recv_chunks : List RecvEvent → Option (List (List Nat))
  | [] => none
  | .timeout :: rest => recv_chunks rest
  | .closed :: _ => some []
  | .data c :: rest => (recv_chunks rest).map (fun cs => c :: cs)

/-- Strict UTF-8 validity of a byte sequence, as Python's
`bytes.decode("utf-8")` checks it (RFC 3629: continuation ranges, no
surrogates, no overlong forms, max U+10FFFF). -/
def valid_utf8 : List Nat → Bool
  | [] => true
  | b :: rest =>
    if b ≤ 0x7F then valid_utf8 rest
    else if 0xC2 ≤ b ∧ b ≤ 0xDF then
      match rest with
      | c1 :: rest2 => (0x80 ≤ c1 && c1 ≤ 0xBF) && valid_utf8 rest2
      | [] => false
    else if b = 0xE0 then
      match rest with
      | c1 :: c2 :: rest2 =>
        (0xA0 ≤ c1 && c1 ≤ 0xBF) && (0x80 ≤ c2 && c2 ≤ 0xBF) && valid_utf8 rest2
      | _ => false
    else if (0xE1 ≤ b ∧ b ≤ 0xEC) ∨ (0xEE ≤ b ∧ b ≤ 0xEF) then
      match rest with
      | c1 :: c2 :: rest2 =>
        (0x80 ≤ c1 && c1 ≤ 0xBF) && (0x80 ≤ c2 && c2 ≤ 0xBF) && valid_utf8 rest2
      | _ => false
    else if b = 0xED then
      match rest with
      | c1 :: c2 :: rest2 =>
        (0x80 ≤ c1 && c1 ≤ 0x9F) && (0x80 ≤ c2 && c2 ≤ 0xBF) && valid_utf8 rest2
      | _ => false
    else if b = 0xF0 then
      match rest with
      | c1 :: c2 :: c3 :: rest2 =>
        (0x90 ≤ c1 && c1 ≤ 0xBF) && (0x80 ≤ c2 && c2 ≤ 0xBF) &&
          (0x80 ≤ c3 && c3 ≤ 0xBF) && valid_utf8 rest2
      | _ => false
    else if 0xF1 ≤ b ∧ b ≤ 0xF3 then
      match rest with
      | c1 :: c2 :: c3 :: rest2 =>
        (0x80 ≤ c1 && c1 ≤ 0xBF) && (0x80 ≤ c2 && c2 ≤ 0xBF) &&
          (0x80 ≤ c3 && c3 ≤ 0xBF) && valid_utf8 rest2
      | _ => false
    else if b = 0xF4 then
      match rest with
      | c1 :: c2 :: c3 :: rest2 =>
        (0x80 ≤ c1 && c1 ≤ 0x8F) && (0x80 ≤ c2 && c2 ≤ 0xBF) &&
          (0x80 ≤ c3 && c3 ≤ 0xBF) && valid_utf8 rest2
      | _ => false
    else false

/-- Outcome of handling one accepted connection in `command_listener`. -/
inductive ConnOutcome where
  /-- The read loop never exits on this trace (no close ever observed). -/
  | stuck
  /-- An exception escaped the connection handling; `command_listener` has no
  handler outside `except socket.timeout`, so the listener thread dies. -/
  | crashed (e : PyError)
  /-- The bytes decoded; the command (forwarded verbatim) is enqueued. -/
  | command (bs : List Nat)
  deriving DecidableEq, Repr

/-- Per-connection handling in `command_listener` (lines 202-216): run the
read loop, join the chunks, `decode("utf-8")` — which raises (uncaught) on
invalid bytes — and enqueue the result. -/
def handle_connection (events : List RecvEvent) : ConnOutcome :=
  match recv_chunks events with
  | none => .stuck
  | some chunks =>
    let bs := chunks.flatten
    if valid_utf8 bs then .command bs else .crashed .unicodeDecodeError

/-! Concrete fixtures used by the closed theorems below: a landscape monitor,
a portrait monitor, a resized monitor, some files, and small environments. -/

/-- A 1920x1080 landscape monitor at the origin. -/
def mon1 : Monitor := ⟨1920, 1080, 0, 0, true⟩

/-- A 1080x1920 portrait monitor to the right of `mon1`. -/
def mon2 : Monitor := ⟨1080, 1920, 1920, 0, false⟩

/-- A 1280x1024 monitor: same count as `mon1` alone, different geometry. -/
def monB : Monitor := ⟨1280, 1024, 0, 0, true⟩

/-- A two-monitor layout over a 3000x1920 viewport. -/
def dd2 : DisplayData := ⟨⟨3000, 1920⟩, [mon1, mon2]⟩

/-- A 1600x900 landscape image. -/
def img1 : Img := ⟨1600, 900⟩

/-- A deterministic stand-in for the RNG behind `random.choices`. -/
def draw0 : Nat → Nat := fun _ => 0

/-- An image decoder that always succeeds with `img1`. -/
def open1 : FSPath → Except PyError Img := fun _ => .ok img1

/-- A file with a recognized image extension. -/
def pngFile : FSPath := ⟨"a", ".png", false⟩

/-- A second file with a recognized image extension. -/
def pngFile2 : FSPath := ⟨"b", ".png", false⟩

/-- A file without a recognized image extension. -/
def txtFile : FSPath := ⟨"notes", ".txt", false⟩

/-- The initial `display_data` of `background_loop` (line 125):
`{"viewport": {}, "monitors": []}`. -/
def dd0 : DisplayData := ⟨⟨0, 0⟩, []⟩

/-- The single-`mon1` layout, as `get_display_data` would return it. -/
def ddPrev1 : DisplayData := ⟨⟨1920, 1080⟩, [mon1]⟩

/-- The single-`monB` layout: same monitor count as `ddPrev1`, different
width/height. -/
def ddB : DisplayData := ⟨⟨1280, 1024⟩, [monB]⟩

/-- An environment whose layout query fails (empty xrandr output). -/
def envBad : LoopEnv := ⟨none, 0, [], draw0, open1⟩

/-- A healthy environment: one monitor, clock at 0, one image available. -/
def envOk : LoopEnv := ⟨some (⟨1920, 1080⟩, [mon1]), 0, [pngFile], draw0, open1⟩

/-- Same monitor count as `ddPrev1` but the monitor was resized. -/
def envGeom : LoopEnv := ⟨some (⟨1280, 1024⟩, [monB]), 0, [pngFile], draw0, open1⟩

/-- A healthy environment whose clock reads exactly one day (86400 s). -/
def envDay : LoopEnv :=
  ⟨some (⟨1920, 1080⟩, [mon1]), 86400, [pngFile], draw0, open1⟩

/-- A one-shot environment with a single monitor. -/
def envOne : OneShotEnv := ⟨some (⟨1920, 1080⟩, [mon1]), [], [], draw0, open1⟩

/-! Helper lemmas shared by several claim theorems. -/

/-- With nonzero monitor heights and image heights, the paste loop succeeds
and each paste is the monitor-sized `fit` output at the monitor's offset. -/
theorem paste_list_ok (l : List (Monitor × Img))
    (h : ∀ p ∈ l, p.1.y ≠ 0 ∧ p.2.height ≠ 0) :
    paste_list l =
      .ok (l.map fun p => (⟨p.1.x, p.1.y⟩, p.1.x_offset, p.1.y_offset)) := by
  induction l with
  | nil => rfl
  | cons p rest ih =>
    have hp := h p (List.mem_cons_self ..)
    have hfit : fit p.2 (p.1.x, p.1.y) = .ok ⟨p.1.x, p.1.y⟩ := by
      simp [fit, resize, hp.1, hp.2]
    have hrest := ih fun q hq => h q (List.mem_cons_of_mem _ hq)
    simp [paste_list, hfit, hrest]

/-- With nonzero heights throughout, `join_images` succeeds: the canvas is
viewport-sized and the pastes follow the (truncating) `zip` pairing. -/
theorem join_images_ok (dd : DisplayData) (images : List Img)
    (h : ∀ p ∈ dd.monitors.zip images, p.1.y ≠ 0 ∧ p.2.height ≠ 0) :
    join_images dd images = .ok ⟨dd.viewport.x, dd.viewport.y,
      (dd.monitors.zip images).map fun p =>
        (⟨p.1.x, p.1.y⟩, p.1.x_offset, p.1.y_offset)⟩ := by
  simp [join_images, paste_list_ok _ h]

/-- Claim C1 counterexample: `join_images` on a two-monitor layout and a
single image does not fail at all — `zip` silently truncates and the call
returns a composed wallpaper with one paste.  There is no
`MonitorImageCountMismatch` check anywhere in `join_images`. -/
theorem C1_counterexample :
    dd2.monitors.length ≠ ([img1] : List Img).length ∧
    join_images dd2 [img1] = .ok ⟨3000, 1920, [(⟨1920, 1080⟩, 0, 0)]⟩ := by
  constructor
  · decide
  · rfl

/-- Claim C1 amended: `join_images` never raises a count-mismatch error.
For any layout and image list (with the positive heights the program always
has), it succeeds, pairing monitors and images positionally via `zip` and
truncating to the shorter sequence: the paste count is
`min (number of monitors) (number of images)`. -/
theorem C1_amended (dd : DisplayData) (images : List Img)
    (hm : ∀ m ∈ dd.monitors, 0 < m.y) (hi : ∀ i ∈ images, 0 < i.height) :
    ∃ w, join_images dd images = .ok w ∧
      w.width = dd.viewport.x ∧ w.height = dd.viewport.y ∧
      w.pastes.length = min dd.monitors.length images.length := by
  refine ⟨_, join_images_ok dd images ?_, rfl, rfl, ?_⟩
  · rintro ⟨m, i⟩ hp
    obtain ⟨h1, h2⟩ := List.of_mem_zip hp
    exact ⟨Nat.pos_iff_ne_zero.mp (hm m h1), Nat.pos_iff_ne_zero.mp (hi i h2)⟩
  · simp

/-- Witness for C1_amended at a concrete mismatched pair (2 monitors,
1 image). -/
theorem C1_witness :
    (∀ m ∈ dd2.monitors, 0 < m.y) ∧ (∀ i ∈ ([img1] : List Img), 0 < i.height) ∧
    ∃ w, join_images dd2 [img1] = .ok w ∧
      w.width = dd2.viewport.x ∧ w.height = dd2.viewport.y ∧
      w.pastes.length = min dd2.monitors.length ([img1] : List Img).length :=
  ⟨by decide, by decide, C1_amended dd2 [img1] (by decide) (by decide)⟩

/-- Claim C2 counterexample: with an empty xrandr result (`envBad`), the
layout-query exception escapes `loop_iter`, and since `background_loop`
(lines 129-138) wraps its body in no try/except, the daemon loop crashes
instead of falling back and continuing. -/
theorem C2_counterexample :
    background_step envBad 5 [] dd0 0 = .crashed .xrandrNull := by
  rfl

/-- Claim C2 amended: failures during a composing pass are NOT caught at the
pipeline boundary; any exception raised inside `loop_iter` (layout query,
image decode, composition) propagates out of the `while True` loop of
`background_loop` and terminates the rotation daemon. -/
theorem C2_amended (env : LoopEnv) (ce : ℚ) (q : List String)
    (prev : DisplayData) (last : Int) (e : PyError)
    (h : loop_iter env ce prev last = .error e) :
    background_step env ce q prev last = .crashed e := by
  simp [background_step, h]

/-- Witness for C2_amended at the failing layout query. -/
theorem C2_witness :
    loop_iter envBad 5 dd0 0 = .error .xrandrNull ∧
    background_step envBad 5 [] dd0 0 = .crashed .xrandrNull :=
  ⟨rfl, C2_amended envBad 5 [] dd0 0 .xrandrNull rfl⟩

/-- Evaluation helper: in `envOk` (count unchanged, elapsed 0 s) the tick
succeeds and composes nothing. -/
theorem loop_iter_envOk_eq : loop_iter envOk 5 ddPrev1 0 = .ok (ddPrev1, 0, none) := by
  have hc : ¬ ((tdSeconds 0 0 : ℚ) / 60 ≥ 5) := by norm_num [tdSeconds]
  simp [loop_iter, get_display_data, envOk, pySorted, insertK, ddPrev1, hc]

/-- Claim C3 counterexample: with an empty command queue, one iteration of
`background_loop` completes its tick and then blocks forever inside
`command_queue.get()` (line 136) — the next scheduled rotation is delayed
indefinitely by the absence of a command client, contrary to the claim that
an absent client never delays rotation. -/
theorem C3_counterexample :
    loop_iter envOk 5 ddPrev1 0 = .ok (ddPrev1, 0, none) ∧
    background_step envOk 5 [] ddPrev1 0 = .blocked ddPrev1 0 := by
  refine ⟨loop_iter_envOk_eq, ?_⟩
  simp [background_step, loop_iter_envOk_eq]

/-- Claim C3 amended: the daemon loop's consumption of commands is blocking,
not non-blocking.  After a successful tick, `command_queue.get()` consumes
the head command when one is queued and otherwise blocks indefinitely, so no
further iteration (and no further rotation) happens until a client sends a
command. -/
theorem C3_amended (env : LoopEnv) (ce : ℚ) (q : List String)
    (prev : DisplayData) (last : Int) (r : DisplayData × Int × Option Wallpaper)
    (h : loop_iter env ce prev last = .ok r) :
    background_step env ce q prev last =
      match q with
      | [] => .blocked r.1 r.2.1
      | c :: rest => .next r.1 r.2.1 c rest := by
  cases q <;> simp [background_step, h]

/-- Witness for C3_amended: empty queue blocks, nonempty queue proceeds. -/
theorem C3_witness :
    background_step envOk 5 [] ddPrev1 0 = .blocked ddPrev1 0 ∧
    background_step envOk 5 ["pause"] ddPrev1 0 = .next ddPrev1 0 "pause" [] :=
  ⟨C3_amended envOk 5 [] ddPrev1 0 (ddPrev1, 0, none) loop_iter_envOk_eq,
   C3_amended envOk 5 ["pause"] ddPrev1 0 (ddPrev1, 0, none) loop_iter_envOk_eq⟩

/-- Evaluation helper: in `envGeom` the monitor was resized (same count as
`ddPrev1`, different width/height) and no interval has elapsed; the tick
composes nothing. -/
theorem loop_iter_envGeom_eq :
    loop_iter envGeom 5 ddPrev1 0 = .ok (ddB, 0, none) := by
  have hc : ¬ ((tdSeconds 0 0 : ℚ) / 60 ≥ 5) := by norm_num [tdSeconds]
  simp [loop_iter, get_display_data, envGeom, pySorted, insertK, ddPrev1, ddB, hc]

/-- Claim C4 counterexample: a fresh layout with the same monitor count but a
different monitor width/height (1280x1024 instead of 1920x1080) does not
trigger recomposition — `loop_iter` compares only `len(monitors)`
(line 152), so the change-detection comparator ignores geometry. -/
theorem C4_counterexample :
    ddB.monitors.length = ddPrev1.monitors.length ∧
    (monB.x, monB.y) ≠ (mon1.x, mon1.y) ∧
    loop_iter envGeom 5 ddPrev1 0 = .ok (ddB, 0, none) :=
  ⟨rfl, by decide, loop_iter_envGeom_eq⟩

/-- Claim C4 amended: the change-detection comparator is count-only.  In any
successful tick, a wallpaper is composed iff the fresh monitor count differs
from the previous one or the (day-wrapped) interval condition
`timedelta.seconds / 60 >= change_every` holds; per-monitor width/height
changes at constant count never fire the trigger. -/
theorem C4_amended (env : LoopEnv) (ce : ℚ) (prev : DisplayData) (last : Int)
    (dd : DisplayData) (t : Int) (w : Option Wallpaper)
    (h : loop_iter env ce prev last = .ok (dd, t, w)) :
    w.isSome = true ↔
      (dd.monitors.length ≠ prev.monitors.length ∨
        (tdSeconds env.now last : ℚ) / 60 ≥ ce) := by
  unfold loop_iter at h
  split at h
  · simp at h
  · next dd0 heq =>
    split at h
    · next h1 =>
      split at h
      · simp at h
      · next merged hcp =>
        simp only [Except.ok.injEq, Prod.mk.injEq] at h
        obtain ⟨rfl, rfl, rfl⟩ := h
        simp [h1]
    · next h1 =>
      split at h
      · next h2 =>
        split at h
        · simp at h
        · next merged hcp =>
          simp only [Except.ok.injEq, Prod.mk.injEq] at h
          obtain ⟨rfl, rfl, rfl⟩ := h
          simp [h2]
      · next h2 =>
        simp only [Except.ok.injEq, Prod.mk.injEq] at h
        obtain ⟨rfl, rfl, rfl⟩ := h
        simp [h1, h2]

/-- Witness for C4_amended at the resized-monitor tick. -/
theorem C4_witness :
    loop_iter envGeom 5 ddPrev1 0 = .ok (ddB, 0, none) ∧
    ((none : Option Wallpaper).isSome = true ↔
      (ddB.monitors.length ≠ ddPrev1.monitors.length ∨
        (tdSeconds envGeom.now 0 : ℚ) / 60 ≥ 5)) :=
  ⟨loop_iter_envGeom_eq,
   C4_amended envGeom 5 ddPrev1 0 ddB 0 none loop_iter_envGeom_eq⟩

/-- Evaluation helper: in `envDay` a full day (86400 s ≥ any small interval)
has elapsed since the last change, yet the tick composes nothing, because
`timedelta.seconds` wraps at one day. -/
theorem loop_iter_envDay_eq :
    loop_iter envDay 5 ddPrev1 0 = .ok (ddPrev1, 0, none) := by
  have h0 : tdSeconds 86400 0 = 0 := by decide
  have hc : ¬ ((tdSeconds 86400 0 : ℚ) / 60 ≥ 5) := by rw [h0]; norm_num
  simp [loop_iter, get_display_data, envDay, pySorted, insertK, ddPrev1, hc]

/-- Claim C5: the code bug.  With rotation interval 5 minutes and 86400
elapsed seconds (= 1440 minutes ≥ 5), the claim requires the step to decide
to compose, but `loop_iter` tests `timedelta.seconds / 60 >= change_every`
(line 156) — the seconds-of-day component, not `total_seconds()` — which is
0 after exactly one day, so no composition happens.  (Equivalently, any
interval above 1440 minutes can never elapse at all.)  The docstring
"changing bg images every specified interval" and the log message make the
intent clear; `.seconds` is a slip for `.total_seconds()`. -/
theorem C5_code_eval :
    ((envDay.now - 0 : ℤ) : ℚ) / 60 ≥ 5 ∧
    loop_iter envDay 5 ddPrev1 0 = .ok (ddPrev1, 0, none) :=
  ⟨by norm_num [envDay], loop_iter_envDay_eq⟩

/-- Claim C6 counterexample: a directory with no recognized image file and a
zero monitor count does not fail — `random.choices` with `k=0` performs no
draw and returns `[]`, so the "fails when the filtered set is empty" clause
does not hold for every monitor count. -/
theorem C6_counterexample :
    ([txtFile].filter fun p => decide (p.suffix ∈ IMAGE_EXT)) = [] ∧
    select_images [txtFile] 0 draw0 = .ok [] := by
  constructor
  · rfl
  · rfl

/-- Claim C6 amended: with a positive monitor count the selection fails on an
empty filtered set (an uncaught `IndexError` from `random.choices`); with a
nonempty filtered set (or a zero count) it succeeds, returning exactly `k`
paths drawn with replacement, every one of them a file of the directory with
a recognized image extension. -/
theorem C6_amended (files : List FSPath) (k : Nat) (draw : Nat → Nat) :
    ((files.filter fun p => decide (p.suffix ∈ IMAGE_EXT)) = [] → 0 < k →
      select_images files k draw = .error .indexError) ∧
    (∀ ps, select_images files k draw = .ok ps →
      ps.length = k ∧ ∀ p ∈ ps, p.suffix ∈ IMAGE_EXT ∧ p ∈ files) ∧
    ((files.filter fun p => decide (p.suffix ∈ IMAGE_EXT)) ≠ [] ∨ k = 0 →
      ∃ ps, select_images files k draw = .ok ps) := by
  unfold select_images choices
  cases hpop : files.filter fun p => decide (p.suffix ∈ IMAGE_EXT) with
  | nil =>
    refine ⟨fun _ hk => ?_, fun ps hps => ?_, fun hor => ?_⟩
    · rw [if_neg (Nat.pos_iff_ne_zero.mp hk)]
    · by_cases hk : k = 0
      · rw [if_pos hk] at hps
        simp only [Except.ok.injEq] at hps
        subst hps
        exact ⟨hk.symm, by simp⟩
      · rw [if_neg hk] at hps
        simp at hps
    · rcases hor with hne | hk
      · exact absurd rfl hne
      · subst hk
        exact ⟨[], by simp⟩
  | cons a rest =>
    refine ⟨fun habs _ => by simp at habs, fun ps hps => ?_, fun _ => ⟨_, rfl⟩⟩
    simp only [Except.ok.injEq] at hps
    subst hps
    constructor
    · simp
    · intro p hp
      simp only [List.mem_map, List.mem_range] at hp
      obtain ⟨i, _, rfl⟩ := hp
      have hall : ∀ b ∈ a :: rest, b.suffix ∈ IMAGE_EXT ∧ b ∈ files := by
        intro b hb
        rw [← hpop] at hb
        have hf := List.mem_filter.mp hb
        exact ⟨by simpa using hf.2, hf.1⟩
      exact hall _ (List.get_mem ..)

/-- Witness for C6_amended: a one-image directory with two monitors succeeds
with two (repeated) draws; a no-image directory with one monitor raises. -/
theorem C6_witness :
    (∃ ps, select_images [pngFile] 2 draw0 = .ok ps) ∧
    select_images [txtFile] 1 draw0 = .error .indexError :=
  ⟨(C6_amended [pngFile] 2 draw0).2.2 (Or.inl (by decide)),
   (C6_amended [txtFile] 1 draw0).1 (by rfl) (by decide)⟩

/-- Claim C7: the code bug.  With two explicit image paths and one monitor,
`main` reaches `sys.exit(f"Number of image paths (2) does not match number of
monitors (1)")` (lines 253-255) — but `copic.py` never imports `sys`, so
Python evaluates the callable `sys.exit` first and raises `NameError: name
'sys' is not defined`.  The process still dies with a nonzero status and no
wallpaper is applied, but with an unrelated traceback instead of the
descriptive `PathCountMismatch`-style message naming both counts. -/
theorem C7_code_eval :
    ([pngFile, pngFile2] : List FSPath).length ≠ 1 ∧
    main_oneshot envOne [pngFile, pngFile2] false = .error (.nameError ("sys")) := by
  constructor
  · decide
  · rfl

/-- Claim C8: per-monitor zoom output dimensions.  For positive monitor and
image dimensions, `PIL.ImageOps.fit` returns exactly the monitor-sized image
for every (image, monitor) pair, and `join_images` pastes exactly
monitor-sized images at the monitor offsets. -/
theorem C8_zoom_dims (dd : DisplayData) (images : List Img)
    (hm : ∀ m ∈ dd.monitors, 0 < m.x ∧ 0 < m.y)
    (hi : ∀ i ∈ images, 0 < i.width ∧ 0 < i.height) :
    (∀ i ∈ images, ∀ m ∈ dd.monitors, fit i (m.x, m.y) = .ok ⟨m.x, m.y⟩) ∧
    join_images dd images = .ok ⟨dd.viewport.x, dd.viewport.y,
      (dd.monitors.zip images).map fun p =>
        (⟨p.1.x, p.1.y⟩, p.1.x_offset, p.1.y_offset)⟩ := by
  constructor
  · intro i hi2 m hm2
    simp [fit, resize, Nat.pos_iff_ne_zero.mp (hm m hm2).2,
      Nat.pos_iff_ne_zero.mp (hi i hi2).2]
  · apply join_images_ok
    rintro ⟨m, i⟩ hp
    obtain ⟨h1, h2⟩ := List.of_mem_zip hp
    exact ⟨Nat.pos_iff_ne_zero.mp (hm m h1).2, Nat.pos_iff_ne_zero.mp (hi i h2).2⟩

/-- A 900x1600 portrait image. -/
def img2 : Img := ⟨900, 1600⟩

/-- Witness for C8_zoom_dims on the two-monitor layout with one landscape and
one portrait image. -/
theorem C8_witness :
    (∀ i ∈ ([img1, img2] : List Img), ∀ m ∈ dd2.monitors,
      fit i (m.x, m.y) = .ok ⟨m.x, m.y⟩) ∧
    join_images dd2 [img1, img2] = .ok ⟨dd2.viewport.x, dd2.viewport.y,
      (dd2.monitors.zip [img1, img2]).map fun p =>
        (⟨p.1.x, p.1.y⟩, p.1.x_offset, p.1.y_offset)⟩ :=
  C8_zoom_dims dd2 [img1, img2] (by decide) (by decide)

/-- A `socket.timeout` on `recv` only makes the read loop `continue`
(line 208): it is transparent to the outcome of the connection, wherever it
occurs in the event trace. -/
theorem recv_chunks_timeout (pre post : List RecvEvent) :
    recv_chunks (pre ++ RecvEvent.timeout :: post) = recv_chunks (pre ++ post) := by
  induction pre with
  | nil => rfl
  | cons e rest ih => cases e <;> simp [recv_chunks, ih]

/-- Claim C9 counterexample: (a) a read timeout neither discards the partial
read nor drops the connection — the loop retries and the final command still
contains the bytes received before the timeout; (b) an invalid UTF-8 payload
(a lone `0xC3` lead byte) makes `bytes.decode("utf-8")` raise outside any
try/except, killing the listener thread. -/
theorem C9_counterexample :
    handle_connection [RecvEvent.data [104, 105], RecvEvent.timeout,
      RecvEvent.data [33], RecvEvent.closed] = .command [104, 105, 33] ∧
    handle_connection [RecvEvent.data [195], RecvEvent.closed] =
      .crashed .unicodeDecodeError := by
  constructor
  · rfl
  · rfl

/-- Claim C9 amended: `except socket.timeout: continue` makes read timeouts
transparent — the partial read is kept and the connection is never dropped
(a permanently silent client leaves the listener stuck in the read loop
forever) — and a UTF-8 decode failure is uncaught and terminates the
listener; only `socket.timeout` is ever caught. -/
theorem C9_amended :
    (∀ pre post, handle_connection (pre ++ RecvEvent.timeout :: post) =
      handle_connection (pre ++ post)) ∧
    (∀ events chunks, recv_chunks events = some chunks →
      valid_utf8 chunks.flatten = false →
      handle_connection events = .crashed .unicodeDecodeError) := by
  constructor
  · intro pre post
    simp [handle_connection, recv_chunks_timeout]
  · intro events chunks h hv
    simp [handle_connection, h, hv]

/-- Witness for C9_amended at a concrete trace with a timeout and a concrete
invalid payload. -/
theorem C9_witness :
    handle_connection ([RecvEvent.data [104]] ++ RecvEvent.timeout ::
      [RecvEvent.closed]) = handle_connection ([RecvEvent.data [104]] ++
      [RecvEvent.closed]) ∧
    handle_connection [RecvEvent.data [255], RecvEvent.closed] =
      .crashed .unicodeDecodeError :=
  ⟨C9_amended.1 [RecvEvent.data [104]] [RecvEvent.closed],
   C9_amended.2 [RecvEvent.data [255], RecvEvent.closed] [[255]] rfl rfl⟩

/-- Filtering the equal-key elements out of a stable insertion: when `x` has
key `q`, it lands in front of every equal-key element already present,
because the insertion only walks past strictly smaller keys. -/
theorem filter_insertK_eq (key : α → ℚ) (q : ℚ) (x : α) (l : List α)
    (hx : key x = q) :
    (insertK key x l).filter (fun a => decide (key a = q)) =
      x :: l.filter (fun a => decide (key a = q)) := by
  induction l with
  | nil => simp [insertK, hx]
  | cons y ys ih =>
    by_cases hlt : key y < key x
    · have hy : ¬ (key y = q) := by
        intro h
        rw [hx] at hlt
        rw [h] at hlt
        exact lt_irrefl q hlt
      simp [insertK, hlt, List.filter_cons, hy, ih]
    · simp only [insertK]
      rw [if_neg hlt]
      simp [List.filter_cons, hx]

/-- Inserting an element whose key is not `q` leaves the `q`-keyed
subsequence unchanged. -/
theorem filter_insertK_ne (key : α → ℚ) (q : ℚ) (x : α) (l : List α)
    (hx : ¬ (key x = q)) :
    (insertK key x l).filter (fun a => decide (key a = q)) =
      l.filter (fun a => decide (key a = q)) := by
  induction l with
  | nil => simp [insertK, hx]
  | cons y ys ih =>
    by_cases hlt : key y < key x
    · simp [insertK, hlt, List.filter_cons, ih]
    · simp [insertK, hlt, List.filter_cons, hx]

/-- Stability of the modelled Python `sorted`: for every key value `q`, the
subsequence of elements whose key equals `q` is exactly the input's
subsequence — equal-key elements keep their original relative order. -/
theorem pySorted_filter_key (key : α → ℚ) (q : ℚ) (l : List α) :
    (pySorted key l).filter (fun a => decide (key a = q)) =
      l.filter (fun a => decide (key a = q)) := by
  induction l with
  | nil => rfl
  | cons x xs ih =>
    by_cases hx : key x = q
    · simp only [pySorted, filter_insertK_eq key q x _ hx, ih,
        List.filter_cons, hx]
      simp
    · simp only [pySorted, filter_insertK_ne key q x _ hx, ih,
        List.filter_cons]
      simp [hx]

/-- Claim C10: the aspect-ratio sorts used to pair images with monitors
(`sorted(images, key=aspect)` in `loop_iter`/`main`, `sorted(monitors,
key=aspect)` in `get_display_data`) are stable: for every aspect-ratio value
`q`, the elements with that ratio appear in the sorted output in exactly
their input order.  Both sorts are pure functions of their input, so two
runs on identical drawn images and identical layout produce the identical
image-to-monitor pairing. -/
theorem C10_sort_stable (images : List Img) (monitors : List Monitor) (q : ℚ) :
    (pySorted aspect images).filter (fun i => decide (aspect i = q)) =
      images.filter (fun i => decide (aspect i = q)) ∧
    (pySorted monAspect monitors).filter (fun m => decide (monAspect m = q)) =
      monitors.filter (fun m => decide (monAspect m = q)) :=
  ⟨pySorted_filter_key aspect q images, pySorted_filter_key monAspect q monitors⟩

end Copic
